import Mathlib

/-
  Verification development for the Far::PatchTables evaluation engine
  (src/opensubdiv/far/patchTables.h).

  The evaluation entry points Evaluate, EvaluateBilinear and
  EvaluateFaceVarying are embedded from the source header. Collaborating
  code that the header includes but that is not part of this repository
  snapshot (far/patchDescriptor.h, far/interpolate.h, patchTables.cpp
  accessor bodies) is modelled from the specification, as marked on each
  definition.

  Numeric data is modelled over the rationals: the claims under study are
  structural (dispatch, clearing, data independence), not statements about
  floating-point rounding.

  A C assert that fails is modelled as an error outcome carried in the
  result: the field err of EvalResult records which assertion aborted the
  call, and the field dst records the destination memory state at the
  abort point (or at return, on success).
-/

/-- Modelled from the spec: the PatchDescriptor Type enum from
far/patchDescriptor.h, which is not under src/. Constructor order follows
the declared ordering given in the spec: REGULAR, SINGLE_CREASE, BOUNDARY,
CORNER, GREGORY, GREGORY_BOUNDARY, GREGORY_BASIS, QUADS, TRIANGLES. -/
inductive PatchType where
  | REGULAR
  | SINGLE_CREASE
  | BOUNDARY
  | CORNER
  | GREGORY
  | GREGORY_BOUNDARY
  | GREGORY_BASIS
  | QUADS
  | TRIANGLES
deriving DecidableEq, Repr

/-- Ordinal of a patch type under the declared enum ordering; used by the
range comparison in PatchTables::Evaluate (patchTables.h line 464). -/
def PatchType.toOrd : PatchType → Nat
  | .REGULAR => 0
  | .SINGLE_CREASE => 1
  | .BOUNDARY => 2
  | .CORNER => 3
  | .GREGORY => 4
  | .GREGORY_BOUNDARY => 5
  | .GREGORY_BASIS => 6
  | .QUADS => 7
  | .TRIANGLES => 8

/-- The bicubic B-spline family test written in Evaluate, line 464:
ptype greater-or-equal REGULAR and less-or-equal CORNER, an ordinal range
comparison over the declared enum ordering. -/
def bsplineFamilyCheck (pt : PatchType) : Bool :=
  decide (PatchType.toOrd .REGULAR ≤ pt.toOrd) &&
  decide (pt.toOrd ≤ PatchType.toOrd .CORNER)

/-- Modelled from the spec: PatchParam::BitField from far/patchParam.h,
which is not under src/. The spec says the bitfield encodes the (u,v)
location of the patch within the parametric domain of its root face, the
subdivision depth, a non-quad-root flag and a boundary/transition mask. -/
structure BitField where
  u : Nat
  v : Nat
  depth : Nat
  nonQuadRoot : Bool
  boundaryMask : Nat
  transitionMask : Nat
deriving DecidableEq, Repr

/-- Modelled from the spec: BitField.Clear zeroes every field, producing the
neutral bitfield that EvaluateFaceVarying builds (patchTables.h
lines 524-525). -/
def BitField.cleared : BitField :=
  { u := 0, v := 0, depth := 0, nonQuadRoot := false,
    boundaryMask := 0, transitionMask := 0 }

/-- PatchParam record of the parameter table; the evaluation paths read its
bitField member (patchTables.h lines 455, 566-567). -/
structure PatchParam where
  bitField : BitField
deriving DecidableEq, Repr

def defaultPatchParam : PatchParam := { bitField := BitField.cleared }

/-- Modelled from the spec: PatchDescriptor pairs a patch type with its
number of control vertices (far/patchDescriptor.h is not under src/). -/
structure PatchDescriptor where
  ptype : PatchType
  numControlVertices : Nat
deriving DecidableEq, Repr

/-- One PatchArray record: a contiguous run of patches sharing one
descriptor, with its starting offsets into the global control-vertex table
and the global patch-param table (spec section 3). -/
structure PatchArray where
  desc : PatchDescriptor
  numPatches : Nat
  vertIndex : Nat
  patchIndex : Nat
deriving DecidableEq, Repr

def defaultPatchArray : PatchArray :=
  { desc := { ptype := .REGULAR, numControlVertices := 0 },
    numPatches := 0, vertIndex := 0, patchIndex := 0 }

/-- Modelled from the spec: one face-varying channel stores its own
patch-type array and value-index table, independent of the vertex patch
layout (spec section 3, FVarPatchChannel; struct body not under src/). -/
structure FVarPatchChannel where
  patchTypes : List PatchType
  patchValues : List Nat
  patchSize : Nat
deriving DecidableEq, Repr

def defaultFVarPatchChannel : FVarPatchChannel :=
  { patchTypes := [], patchValues := [], patchSize := 0 }

/-- Modelled from the spec: a stencil table maps a target index to an
ordered set of (source-index, weight) pairs (spec section 6, Stencil Table
capability contract); consumed read-only by Gregory-basis evaluation. -/
structure StencilTables where
  rows : List (List (Nat × Rat))
deriving DecidableEq, Repr

/-- PatchHandle from patchTables.h lines 65-75: array index, absolute patch
index, and the relative offset to the first control vertex of the patch in
its array. -/
structure PatchHandle where
  arrayIndex : Nat
  patchIndex : Nat
  vertIndex : Nat
deriving DecidableEq, Repr

/-- The PatchTables container state relevant to evaluation
(patchTables.h lines 398-436). -/
structure PatchTables where
  patchArrays : List PatchArray
  patchVerts : List Nat
  paramTable : List PatchParam
  endcapVertexStencilTables : Option StencilTables
  fvarChannels : List FVarPatchChannel
deriving DecidableEq, Repr

/-- Private accessor getPatchArray (declared patchTables.h lines 360-361;
body not under src/, modelled as positional lookup). -/
def getPatchArray (tbl : PatchTables) (i : Nat) : PatchArray :=
  tbl.patchArrays.getD i defaultPatchArray

/-- GetPatchArrayDescriptor (declared patchTables.h line 146): the
descriptor shared by the patches of one array. -/
def GetPatchArrayDescriptor (tbl : PatchTables) (i : Nat) : PatchDescriptor :=
  (getPatchArray tbl i).desc

/-- GetPatchVertices (declared patchTables.h line 115; body not under src/).
Modelled from the spec: the control vertices of a patch are a contiguous
slice of the flat index table, of length equal to the vertex count of the
descriptor of the patch, starting at the array base offset plus the handle
relative offset. -/
def GetPatchVertices (tbl : PatchTables) (h : PatchHandle) : List Nat :=
  let pa := getPatchArray tbl h.arrayIndex
  (tbl.patchVerts.drop (pa.vertIndex + h.vertIndex)).take pa.desc.numControlVertices

/-- Modelled from the spec: IsFeatureAdaptive (declared patchTables.h
line 86; body not under src/) reports whether any non-bilinear-quad patch
exists in the tables. -/
def IsFeatureAdaptive (tbl : PatchTables) : Bool :=
  tbl.patchArrays.any
    (fun a => decide (0 < a.numPatches) && decide (a.desc.ptype ≠ PatchType.QUADS))

/-- GetFVarPatchType (declared patchTables.h line 218; body not under src/).
Modelled from the spec: the channel stores its own per-patch type array. -/
def GetFVarPatchType (tbl : PatchTables) (channel : Nat) (h : PatchHandle) : PatchType :=
  (tbl.fvarChannels.getD channel defaultFVarPatchChannel).patchTypes.getD
    h.patchIndex PatchType.REGULAR

/-- GetFVarPatchValues (declared patchTables.h line 228; body not under
src/). Modelled from the spec: the value indices of a patch in a channel
are a contiguous slice of the channel value-index table. -/
def GetFVarPatchValues (tbl : PatchTables) (channel : Nat) (h : PatchHandle) : List Nat :=
  let ch := tbl.fvarChannels.getD channel defaultFVarPatchChannel
  (ch.patchValues.drop (h.patchIndex * ch.patchSize)).take ch.patchSize

/-- A weight/derivative triple: value weights and the two first-derivative
weight vectors, as filled by the GetXWeights functions (spec section 4.2). -/
structure Weights where
  q : List Rat
  qd1 : List Rat
  qd2 : List Rat
deriving DecidableEq, Repr

/-- Modelled from the spec: the bitfield remaps the caller (s,t) into the
sub-quadrant of the root face addressed by (u,v,depth)
(spec section 3, PatchParam). -/
def normalizeCoord (off : Nat) (depth : Nat) (s : Rat) : Rat :=
  s * (2 : Rat) ^ depth - (off : Rat)

/-- Uniform cubic B-spline basis values at u. -/
def bsplineBasis (u : Rat) : List Rat :=
  [ (1 - u) ^ 3 / 6,
    (3 * u ^ 3 - 6 * u ^ 2 + 4) / 6,
    (-3 * u ^ 3 + 3 * u ^ 2 + 3 * u + 1) / 6,
    u ^ 3 / 6 ]

/-- Uniform cubic B-spline basis derivatives at u. -/
def bsplineDeriv (u : Rat) : List Rat :=
  [ -((1 - u) ^ 2) / 2,
    (3 * u ^ 2 - 4 * u) / 2,
    (-3 * u ^ 2 + 2 * u + 1) / 2,
    u ^ 2 / 2 ]

/-- Cubic Bernstein (Bezier) basis values at u. -/
def bezierBasis (u : Rat) : List Rat :=
  [ (1 - u) ^ 3,
    3 * u * (1 - u) ^ 2,
    3 * u ^ 2 * (1 - u),
    u ^ 3 ]

/-- Cubic Bernstein (Bezier) basis derivatives at u. -/
def bezierDeriv (u : Rat) : List Rat :=
  [ -3 * (1 - u) ^ 2,
    3 * (1 - u) ^ 2 - 6 * u * (1 - u),
    6 * u * (1 - u) - 3 * u ^ 2,
    3 * u ^ 2 ]

/-- Tensor product of two 1-dimensional weight vectors, row-major. -/
def tensorWeights (bs bt : List Rat) : List Rat :=
  bt.flatMap (fun wt => bs.map (fun ws => ws * wt))

/-- Modelled from the spec: GetBSplineWeights from far/interpolate.h (not
under src/): a pure function of (bitfield, s, t) producing 16 bicubic
B-spline weights and the two derivative weight vectors, after remapping
(s,t) through the bitfield sub-quadrant address. -/
def GetBSplineWeights (bits : BitField) (s t : Rat) : Weights :=
  let sn := normalizeCoord bits.u bits.depth s
  let tn := normalizeCoord bits.v bits.depth t
  let scale : Rat := (2 : Rat) ^ bits.depth
  { q := tensorWeights (bsplineBasis sn) (bsplineBasis tn),
    qd1 := (tensorWeights (bsplineDeriv sn) (bsplineBasis tn)).map (· * scale),
    qd2 := (tensorWeights (bsplineBasis sn) (bsplineDeriv tn)).map (· * scale) }

/-- Modelled from the spec: GetBezierWeights from far/interpolate.h (not
under src/): Bezier-basis weights used for Gregory-basis (stencil-backed)
patches, a pure function of (bitfield, s, t). -/
def GetBezierWeights (bits : BitField) (s t : Rat) : Weights :=
  let sn := normalizeCoord bits.u bits.depth s
  let tn := normalizeCoord bits.v bits.depth t
  let scale : Rat := (2 : Rat) ^ bits.depth
  { q := tensorWeights (bezierBasis sn) (bezierBasis tn),
    qd1 := (tensorWeights (bezierDeriv sn) (bezierBasis tn)).map (· * scale),
    qd2 := (tensorWeights (bezierBasis sn) (bezierDeriv tn)).map (· * scale) }

/-- Modelled from the spec: GetBilinearWeights from far/interpolate.h (not
under src/): 4 bilinear corner-blend weights and their derivatives, a pure
function of (bitfield, s, t). -/
def GetBilinearWeights (bits : BitField) (s t : Rat) : Weights :=
  let sn := normalizeCoord bits.u bits.depth s
  let tn := normalizeCoord bits.v bits.depth t
  let scale : Rat := (2 : Rat) ^ bits.depth
  { q := [ (1 - sn) * (1 - tn), sn * (1 - tn), sn * tn, (1 - sn) * tn ],
    qd1 := ([ -(1 - tn), (1 - tn), tn, -tn ]).map (· * scale),
    qd2 := ([ -(1 - sn), -sn, sn, (1 - sn) ]).map (· * scale) }

/-- A destination primvar accumulator: one value channel and two derivative
channels (spec section 6, primvar buffer capability contract). -/
structure PrimvarDst where
  v : Rat
  d1 : Rat
  d2 : Rat
deriving DecidableEq, Repr

/-- The zero accumulator. -/
def PrimvarDst.zero : PrimvarDst := { v := 0, d1 := 0, d2 := 0 }

/-- Clear semantics of the destination capability: zero every channel,
regardless of prior contents (spec sections 4.3 and 6). -/
def PrimvarDst.clear (_d : PrimvarDst) : PrimvarDst := PrimvarDst.zero

/-- Weighted sum of source values over a control-vertex index slice, pairing
each index with its weight. -/
def weightedSum (cvs : List Nat) (w : List Rat) (src : Nat → Rat) : Rat :=
  ((cvs.zip w).map (fun p => p.2 * src p.1)).sum

/-- Modelled from the spec: the generic interpolation contract of
far/interpolate.h (not under src/): the destination is first cleared, then
each (index, weight) pair contributes weight times the source element into
the value and the two derivative channels (spec section 4.3). The incoming
destination is a parameter, as in the source signatures, but the clear step
makes the result independent of it. -/
def clearAccumulate (cvs : List Nat) (w : Weights) (src : Nat → Rat)
    (_dst : PrimvarDst) : PrimvarDst :=
  { v := weightedSum cvs w.q src,
    d1 := weightedSum cvs w.qd1 src,
    d2 := weightedSum cvs w.qd2 src }

/-- Modelled from the spec: InterpolateRegularPatch from far/interpolate.h
(not under src/); the generic clear-then-accumulate contract over the
16-point regular slice. -/
def InterpolateRegularPatch (cvs : List Nat) (w : Weights) (src : Nat → Rat)
    (dst : PrimvarDst) : PrimvarDst :=
  clearAccumulate cvs w src dst

/-- Modelled from the spec: InterpolateBoundaryPatch from far/interpolate.h
(not under src/); same generic contract over the boundary-variant slice,
the boundary folding being carried by the weight variant (spec 4.2). -/
def InterpolateBoundaryPatch (cvs : List Nat) (w : Weights) (src : Nat → Rat)
    (dst : PrimvarDst) : PrimvarDst :=
  clearAccumulate cvs w src dst

/-- Modelled from the spec: InterpolateCornerPatch from far/interpolate.h
(not under src/); same generic contract over the corner-variant slice. -/
def InterpolateCornerPatch (cvs : List Nat) (w : Weights) (src : Nat → Rat)
    (dst : PrimvarDst) : PrimvarDst :=
  clearAccumulate cvs w src dst

/-- Modelled from the spec: InterpolateBilinearPatch from far/interpolate.h
(not under src/); same generic contract over the 4-point quad slice. -/
def InterpolateBilinearPatch (cvs : List Nat) (w : Weights) (src : Nat → Rat)
    (dst : PrimvarDst) : PrimvarDst :=
  clearAccumulate cvs w src dst

/-- One stencil row combination: the weighted sum of source elements named
by the row (spec section 6, stencil capability contract). -/
def stencilRowCombine (st : StencilTables) (row : Nat) (src : Nat → Rat) : Rat :=
  ((st.rows.getD row []).map (fun p => p.2 * src p.1)).sum

/-- Modelled from the spec: InterpolateGregoryPatch from far/interpolate.h
(not under src/): resolves the stencil-table rows starting at the handle
vertex offset and interpolates the stencil-weighted combinations with the
Bezier weights, in place of a direct control-vertex slice (spec 4.4,
GREGORY_BASIS). -/
def InterpolateGregoryPatch (st : StencilTables) (vertIndex : Nat)
    (_s _t : Rat) (w : Weights) (src : Nat → Rat) (_dst : PrimvarDst) : PrimvarDst :=
  let vals := (List.range w.q.length).map (fun k => stencilRowCombine st (vertIndex + k) src)
  { v := ((vals.zip w.q).map (fun p => p.2 * p.1)).sum,
    d1 := ((vals.zip w.qd1).map (fun p => p.2 * p.1)).sum,
    d2 := ((vals.zip w.qd2).map (fun p => p.2 * p.1)).sum }

/-- Which C assert aborted an evaluation call. -/
inductive EvalError where
  | featureAdaptiveAssert
  | unsupportedTypeAssert
  | missingStencilAssert
  | patchSizeAssert
deriving DecidableEq, Repr

/-- Result of an evaluation entry point: the destination memory state, and
the assert that aborted the call, if any. -/
structure EvalResult where
  dst : PrimvarDst
  err : Option EvalError
deriving DecidableEq, Repr

/-- PatchTables::Evaluate, embedded from patchTables.h lines 448-509.
First asserts IsFeatureAdaptive, reads the bitfield of the patch from the
param table and the patch type from the array descriptor, clears the
destination, then dispatches: the bicubic B-spline family band computes
B-spline weights and switches over the four band members (SINGLE_CREASE
falls through its empty TODO case), GREGORY and GREGORY_BOUNDARY and the
switch default assert; GREGORY_BASIS asserts a non-null end-cap vertex
stencil table, computes Bezier weights and interpolates through the stencil
rows at the handle vertex offset; QUADS computes bilinear weights over the
control-vertex slice; any other type asserts. -/
def Evaluate (tbl : PatchTables) (h : PatchHandle) (s t : Rat)
    (src : Nat → Rat) (dst : PrimvarDst) : EvalResult :=
  if !IsFeatureAdaptive tbl then
    { dst := dst, err := some .featureAdaptiveAssert }
  else
    let bits := (tbl.paramTable.getD h.patchIndex defaultPatchParam).bitField
    let ptype := (GetPatchArrayDescriptor tbl h.arrayIndex).ptype
    let dst1 := PrimvarDst.clear dst
    if bsplineFamilyCheck ptype then
      let w := GetBSplineWeights bits s t
      let cvs := GetPatchVertices tbl h
      match ptype with
      | .REGULAR =>
          { dst := InterpolateRegularPatch cvs w src dst1, err := none }
      | .SINGLE_CREASE =>
          -- source line 475: TODO, InterpolateSingleCreasePatch not implemented;
          -- the case body is empty and the cleared destination is returned
          { dst := dst1, err := none }
      | .BOUNDARY =>
          { dst := InterpolateBoundaryPatch cvs w src dst1, err := none }
      | .CORNER =>
          { dst := InterpolateCornerPatch cvs w src dst1, err := none }
      | .GREGORY =>
          { dst := dst1, err := some .unsupportedTypeAssert }
      | .GREGORY_BOUNDARY =>
          { dst := dst1, err := some .unsupportedTypeAssert }
      | _ =>
          { dst := dst1, err := some .unsupportedTypeAssert }
    else if ptype = .GREGORY_BASIS then
      match tbl.endcapVertexStencilTables with
      | none => { dst := dst1, err := some .missingStencilAssert }
      | some st =>
          let w := GetBezierWeights bits s t
          { dst := InterpolateGregoryPatch st h.vertIndex s t w src dst1,
            err := none }
    else if ptype = .QUADS then
      let cvs := GetPatchVertices tbl h
      let w := GetBilinearWeights bits s t
      { dst := InterpolateBilinearPatch cvs w src dst1, err := none }
    else
      { dst := dst1, err := some .unsupportedTypeAssert }

/-- PatchTables::EvaluateBilinear, embedded from patchTables.h
lines 557-575: reads the control-vertex slice, asserts it has exactly 4
entries, reads the stored bitfield, clears the destination, computes
bilinear weights and interpolates — with no patch-type dispatch and no
feature-adaptivity check. -/
def EvaluateBilinear (tbl : PatchTables) (h : PatchHandle) (s t : Rat)
    (src : Nat → Rat) (dst : PrimvarDst) : EvalResult :=
  let cvs := GetPatchVertices tbl h
  if cvs.length ≠ 4 then
    { dst := dst, err := some .patchSizeAssert }
  else
    let bits := (tbl.paramTable.getD h.patchIndex defaultPatchParam).bitField
    let dst1 := PrimvarDst.clear dst
    let w := GetBilinearWeights bits s t
    { dst := InterpolateBilinearPatch cvs w src dst1, err := none }

/-- The switch of PatchTables::EvaluateFaceVarying over the channel patch
type, embedded from patchTables.h lines 529-554. The TRIANGLES case is
embedded as the source executes: the C statement at line 535 asserts a
string literal, which converts to a non-null pointer and is therefore
always true, so the assert never fires, and the case has no break, so
control falls through into the REGULAR case. The default case asserts. -/
def fvarDispatch (ptype : PatchType) (cvs : List Nat) (s t : Rat)
    (src : Nat → Rat) (dst : PrimvarDst) : EvalResult :=
  let bits := BitField.cleared
  match ptype with
  | .QUADS =>
      { dst := InterpolateBilinearPatch cvs (GetBilinearWeights bits s t) src dst,
        err := none }
  | .TRIANGLES =>
      { dst := InterpolateRegularPatch cvs (GetBSplineWeights bits s t) src dst,
        err := none }
  | .REGULAR =>
      { dst := InterpolateRegularPatch cvs (GetBSplineWeights bits s t) src dst,
        err := none }
  | .BOUNDARY =>
      { dst := InterpolateBoundaryPatch cvs (GetBSplineWeights bits s t) src dst,
        err := none }
  | .CORNER =>
      { dst := InterpolateCornerPatch cvs (GetBSplineWeights bits s t) src dst,
        err := none }
  | _ =>
      { dst := dst, err := some .unsupportedTypeAssert }

/-- PatchTables::EvaluateFaceVarying, embedded from patchTables.h
lines 515-555: resolves the value-index slice and patch type of the handle
from the channel itself, builds a cleared bitfield, and dispatches over the
channel patch type. Note the source performs no dst.Clear of its own; the
clearing is the first step of the interpolation routines (spec 4.3). -/
def EvaluateFaceVarying (tbl : PatchTables) (channel : Nat) (h : PatchHandle)
    (s t : Rat) (src : Nat → Rat) (dst : PrimvarDst) : EvalResult :=
  fvarDispatch (GetFVarPatchType tbl channel h) (GetFVarPatchValues tbl channel h)
    s t src dst

/-- Spec-side predicate for the round-trip claim: a table consisting only of
bilinear quads (every patch array holds 4-control-vertex QUADS patches). -/
def allBilinearQuads (tbl : PatchTables) : Bool :=
  tbl.patchArrays.all
    (fun a => decide (a.desc.ptype = PatchType.QUADS) &&
              decide (a.desc.numControlVertices = 4))

/-- Identity-like source buffer used for concrete witnesses. -/
def srcId : Nat → Rat := fun n => (n : Rat)

def handle0 : PatchHandle := { arrayIndex := 0, patchIndex := 0, vertIndex := 0 }

def dstA : PrimvarDst := { v := 1, d1 := 2, d2 := 3 }

def dstB : PrimvarDst := { v := 4, d1 := 5, d2 := 6 }

def quadArray : PatchArray :=
  { desc := { ptype := .QUADS, numControlVertices := 4 },
    numPatches := 1, vertIndex := 0, patchIndex := 0 }

/-- A strictly uniform table: one array of one bilinear quad. -/
def uniformQuadTable : PatchTables :=
  { patchArrays := [quadArray], patchVerts := [0, 1, 2, 3],
    paramTable := [defaultPatchParam],
    endcapVertexStencilTables := none, fvarChannels := [] }

def regularArray : PatchArray :=
  { desc := { ptype := .REGULAR, numControlVertices := 16 },
    numPatches := 1, vertIndex := 4, patchIndex := 1 }

/-- A feature-adaptive table holding a quad array next to a regular array. -/
def mixedTable : PatchTables :=
  { patchArrays := [quadArray, regularArray],
    patchVerts := [0, 1, 2, 3, 4, 5, 6, 7, 8, 9, 10, 11, 12, 13, 14, 15, 16, 17, 18, 19],
    paramTable := [defaultPatchParam, defaultPatchParam],
    endcapVertexStencilTables := none, fvarChannels := [] }

/-- A feature-adaptive table whose one patch is a single-crease patch. -/
def singleCreaseTable : PatchTables :=
  { patchArrays := [ { desc := { ptype := .SINGLE_CREASE, numControlVertices := 16 },
                       numPatches := 1, vertIndex := 0, patchIndex := 0 } ],
    patchVerts := [0, 1, 2, 3, 4, 5, 6, 7, 8, 9, 10, 11, 12, 13, 14, 15],
    paramTable := [defaultPatchParam],
    endcapVertexStencilTables := none, fvarChannels := [] }

/-- A feature-adaptive table whose one patch is a 4-control-vertex patch of
stored type REGULAR, exercising EvaluateBilinear across stored types. -/
def regular4Table : PatchTables :=
  { patchArrays := [ { desc := { ptype := .REGULAR, numControlVertices := 4 },
                       numPatches := 1, vertIndex := 0, patchIndex := 0 } ],
    patchVerts := [0, 1, 2, 3],
    paramTable := [defaultPatchParam],
    endcapVertexStencilTables := none, fvarChannels := [] }

/-- A table whose one patch uses the legacy GREGORY representation. -/
def gregoryLegacyTable : PatchTables :=
  { patchArrays := [ { desc := { ptype := .GREGORY, numControlVertices := 4 },
                       numPatches := 1, vertIndex := 0, patchIndex := 0 } ],
    patchVerts := [0, 1, 2, 3],
    paramTable := [defaultPatchParam],
    endcapVertexStencilTables := none, fvarChannels := [] }

/-- A small end-cap stencil table with identity-style rows. -/
def sampleStencil : StencilTables :=
  { rows := (List.range 16).map (fun i => [(i, (1 : Rat))]) }

/-- A feature-adaptive table whose one patch is a Gregory-basis end-cap
patch backed by sampleStencil. -/
def gregoryBasisTable : PatchTables :=
  { patchArrays := [ { desc := { ptype := .GREGORY_BASIS, numControlVertices := 20 },
                       numPatches := 1, vertIndex := 0, patchIndex := 0 } ],
    patchVerts := [],
    paramTable := [defaultPatchParam],
    endcapVertexStencilTables := some sampleStencil, fvarChannels := [] }

/-- A table carrying one face-varying channel whose single patch is typed
TRIANGLES in the channel. -/
def fvarTriTable : PatchTables :=
  { patchArrays := [], patchVerts := [], paramTable := [],
    endcapVertexStencilTables := none,
    fvarChannels := [ { patchTypes := [PatchType.TRIANGLES],
                        patchValues := [5, 6, 7], patchSize := 3 } ] }

/-- A table with one quad face-varying channel, for the channel-independence
witnesses. -/
def fvarTableA : PatchTables :=
  { patchArrays := [quadArray], patchVerts := [0, 1, 2, 3],
    paramTable := [defaultPatchParam],
    endcapVertexStencilTables := none,
    fvarChannels := [ { patchTypes := [PatchType.QUADS],
                        patchValues := [10, 11, 12, 13], patchSize := 4 } ] }

/-- fvarTableA with a completely different vertex control-vertex table. -/
def fvarTableB : PatchTables :=
  { fvarTableA with patchVerts := [99, 98, 97, 96] }

/-- C7: the dispatch test of Evaluate selects the bicubic B-spline family
(GetBSplineWeights) exactly when the patch type lies in the contiguous
ordinal band from REGULAR to CORNER, which under the declared enum
ordering is exactly the set containing REGULAR, SINGLE_CREASE, BOUNDARY
and CORNER. -/
theorem bspline_band_is_four_types (pt : PatchType) :
    bsplineFamilyCheck pt = true ↔
      (pt = PatchType.REGULAR ∨ pt = PatchType.SINGLE_CREASE ∨
       pt = PatchType.BOUNDARY ∨ pt = PatchType.CORNER) := by
  cases pt <;> simp [bsplineFamilyCheck, PatchType.toOrd]

/-- C6: Evaluate requires IsFeatureAdaptive as a precondition: its
feature-adaptivity assertion fires exactly when the table is not
feature-adaptive, in which case the call aborts fatally with the
destination untouched; under the precondition that assertion never
fires. -/
theorem evaluate_feature_adaptive_contract (tbl : PatchTables)
    (h : PatchHandle) (s t : Rat) (src : Nat → Rat) (d : PrimvarDst) :
    ((Evaluate tbl h s t src d).err = some EvalError.featureAdaptiveAssert ↔
      IsFeatureAdaptive tbl = false) ∧
    (IsFeatureAdaptive tbl = false →
      Evaluate tbl h s t src d =
        { dst := d, err := some EvalError.featureAdaptiveAssert }) := by
  by_cases hfa : IsFeatureAdaptive tbl = true
  · refine ⟨⟨fun he => ?_, fun hf => ?_⟩, fun hf => ?_⟩
    · rcases hpt : (GetPatchArrayDescriptor tbl h.arrayIndex).ptype <;>
        rcases hst : tbl.endcapVertexStencilTables <;>
          simp [Evaluate, hfa, hpt, hst, bsplineFamilyCheck, PatchType.toOrd] at he
    · rw [hfa] at hf; exact absurd hf (by simp)
    · rw [hfa] at hf; exact absurd hf (by simp)
  · have hfa' : IsFeatureAdaptive tbl = false := by
      simpa using hfa
    exact ⟨⟨fun _ => hfa', fun _ => by simp [Evaluate, hfa']⟩,
           fun _ => by simp [Evaluate, hfa']⟩

/-- C6 witness: on a strictly uniform quad table the call aborts on the
feature-adaptivity assertion with the destination untouched. -/
theorem evaluate_feature_adaptive_contract_witness :
    Evaluate uniformQuadTable handle0 0 0 srcId PrimvarDst.zero =
      { dst := PrimvarDst.zero, err := some EvalError.featureAdaptiveAssert } :=
  (evaluate_feature_adaptive_contract uniformQuadTable handle0 0 0 srcId
    PrimvarDst.zero).2 (by decide)

/-- C1: on a patch whose array descriptor type is SINGLE_CREASE, Evaluate
clears the destination and accumulates nothing: the result is exactly the
cleared destination with no assertion failure, for every (s,t) and every
source buffer. -/
theorem evaluate_single_crease_silent_zero (tbl : PatchTables)
    (h : PatchHandle) (s t : Rat) (src : Nat → Rat) (d : PrimvarDst)
    (hmem : getPatchArray tbl h.arrayIndex ∈ tbl.patchArrays)
    (hnp : 0 < (getPatchArray tbl h.arrayIndex).numPatches)
    (hty : (getPatchArray tbl h.arrayIndex).desc.ptype = PatchType.SINGLE_CREASE) :
    Evaluate tbl h s t src d = { dst := PrimvarDst.zero, err := none } := by
  have hfa : IsFeatureAdaptive tbl = true := by
    unfold IsFeatureAdaptive
    rw [List.any_eq_true]
    exact ⟨_, hmem, by simp [hty, hnp]⟩
  simp [Evaluate, hfa, GetPatchArrayDescriptor, hty, bsplineFamilyCheck,
    PatchType.toOrd, PrimvarDst.clear]

/-- C1 witness: a concrete single-crease patch evaluates to the zeroed
destination with no error. -/
theorem evaluate_single_crease_silent_zero_witness :
    Evaluate singleCreaseTable handle0 (1/2) (1/2) srcId dstA =
      { dst := PrimvarDst.zero, err := none } :=
  evaluate_single_crease_silent_zero singleCreaseTable handle0 (1/2) (1/2)
    srcId dstA (by decide) (by decide) (by decide)

/-- C9: on a patch whose array descriptor type is outside the set handled
by the dispatch of Evaluate (which covers GREGORY and GREGORY_BOUNDARY in
particular), the call aborts on an assertion with nothing accumulated into
the destination beyond the initial clear. -/
theorem evaluate_unhandled_type_assert (tbl : PatchTables)
    (h : PatchHandle) (s t : Rat) (src : Nat → Rat) (d : PrimvarDst)
    (hfa : IsFeatureAdaptive tbl = true)
    (hty : (getPatchArray tbl h.arrayIndex).desc.ptype ∉
      ([.REGULAR, .SINGLE_CREASE, .BOUNDARY, .CORNER, .GREGORY_BASIS, .QUADS] :
        List PatchType)) :
    Evaluate tbl h s t src d =
      { dst := PrimvarDst.zero, err := some EvalError.unsupportedTypeAssert } := by
  have hty3 : (getPatchArray tbl h.arrayIndex).desc.ptype = PatchType.GREGORY ∨
      (getPatchArray tbl h.arrayIndex).desc.ptype = PatchType.GREGORY_BOUNDARY ∨
      (getPatchArray tbl h.arrayIndex).desc.ptype = PatchType.TRIANGLES := by
    cases hpt : (getPatchArray tbl h.arrayIndex).desc.ptype <;> simp_all
  rcases hty3 with h1 | h1 | h1 <;>
    simp [Evaluate, hfa, GetPatchArrayDescriptor, h1, bsplineFamilyCheck,
      PatchType.toOrd, PrimvarDst.clear]

/-- C9 witness: a concrete legacy GREGORY patch aborts on the unsupported
type assertion with the destination only cleared. -/
theorem evaluate_unhandled_type_assert_witness :
    Evaluate gregoryLegacyTable handle0 0 0 srcId dstA =
      { dst := PrimvarDst.zero, err := some EvalError.unsupportedTypeAssert } :=
  evaluate_unhandled_type_assert gregoryLegacyTable handle0 0 0 srcId dstA
    (by decide) (by decide)

/-- Helper: the full value of Evaluate on a GREGORY_BASIS patch, as a match
over the end-cap vertex stencil table of the container. -/
theorem evaluate_gregory_core (tbl : PatchTables)
    (h : PatchHandle) (s t : Rat) (src : Nat → Rat) (d : PrimvarDst)
    (hfa : IsFeatureAdaptive tbl = true)
    (hty : (getPatchArray tbl h.arrayIndex).desc.ptype = PatchType.GREGORY_BASIS) :
    Evaluate tbl h s t src d =
      (match tbl.endcapVertexStencilTables with
        | none => { dst := PrimvarDst.zero, err := some EvalError.missingStencilAssert }
        | some st =>
          { dst := InterpolateGregoryPatch st h.vertIndex s t
              (GetBezierWeights
                (tbl.paramTable.getD h.patchIndex defaultPatchParam).bitField s t)
              src PrimvarDst.zero,
            err := none }) := by
  rcases hst : tbl.endcapVertexStencilTables with _ | st <;>
    simp [Evaluate, hfa, GetPatchArrayDescriptor, hty, hst, bsplineFamilyCheck,
      PatchType.toOrd, PrimvarDst.clear]

/-- C5: on a GREGORY_BASIS patch, Evaluate aborts if the end-cap vertex
stencil table is missing; otherwise it interpolates through the stencil
rows resolved from the vertex offset of the handle, with Bezier weights
computed from the stored bitfield and (s,t), on the cleared destination;
and the result never reads the direct control-vertex table. -/
theorem evaluate_gregory_basis_stencil (tbl : PatchTables)
    (h : PatchHandle) (s t : Rat) (src : Nat → Rat) (d : PrimvarDst)
    (hmem : getPatchArray tbl h.arrayIndex ∈ tbl.patchArrays)
    (hnp : 0 < (getPatchArray tbl h.arrayIndex).numPatches)
    (hty : (getPatchArray tbl h.arrayIndex).desc.ptype = PatchType.GREGORY_BASIS) :
    (tbl.endcapVertexStencilTables = none →
      Evaluate tbl h s t src d =
        { dst := PrimvarDst.zero, err := some EvalError.missingStencilAssert }) ∧
    (∀ st, tbl.endcapVertexStencilTables = some st →
      Evaluate tbl h s t src d =
        { dst := InterpolateGregoryPatch st h.vertIndex s t
            (GetBezierWeights
              (tbl.paramTable.getD h.patchIndex defaultPatchParam).bitField s t)
            src PrimvarDst.zero,
          err := none }) ∧
    (∀ pv, Evaluate { tbl with patchVerts := pv } h s t src d =
      Evaluate tbl h s t src d) := by
  have hfa : IsFeatureAdaptive tbl = true := by
    unfold IsFeatureAdaptive
    rw [List.any_eq_true]
    exact ⟨_, hmem, by simp [hty, hnp]⟩
  have hfa2 : ∀ pv, IsFeatureAdaptive { tbl with patchVerts := pv } = true := by
    intro pv; simpa [IsFeatureAdaptive] using hfa
  have core := evaluate_gregory_core tbl h s t src d hfa hty
  refine ⟨fun hst => ?_, fun st hst => ?_, fun pv => ?_⟩
  · rw [core, hst]
  · rw [core, hst]
  · have hty2 : (getPatchArray { tbl with patchVerts := pv } h.arrayIndex).desc.ptype =
        PatchType.GREGORY_BASIS := hty
    have core2 := evaluate_gregory_core { tbl with patchVerts := pv } h s t src d
      (hfa2 pv) hty2
    rw [core, core2]

/-- C5 witness: the concrete Gregory-basis patch of gregoryBasisTable
evaluates through the sampleStencil rows at vertex offset 0. -/
theorem evaluate_gregory_basis_stencil_witness :
    Evaluate gregoryBasisTable handle0 0 0 srcId dstA =
      { dst := InterpolateGregoryPatch sampleStencil handle0.vertIndex 0 0
          (GetBezierWeights
            (gregoryBasisTable.paramTable.getD handle0.patchIndex
              defaultPatchParam).bitField 0 0)
          srcId PrimvarDst.zero,
        err := none } :=
  (evaluate_gregory_basis_stencil gregoryBasisTable handle0 0 0 srcId dstA
    (by decide) (by decide) (by decide)).2.1 sampleStencil rfl

/-- C10: the output of EvaluateFaceVarying depends only on the value-index
slice and patch type that the channel itself resolves for the handle: two
tables agreeing on those (in particular, tables differing only in the
vertex control-vertex table) yield identical results. -/
theorem fvar_depends_only_on_channel (t1 t2 : PatchTables) (channel : Nat)
    (h : PatchHandle) (s t : Rat) (src : Nat → Rat) (d : PrimvarDst)
    (hv : GetFVarPatchValues t1 channel h = GetFVarPatchValues t2 channel h)
    (ht : GetFVarPatchType t1 channel h = GetFVarPatchType t2 channel h) :
    EvaluateFaceVarying t1 channel h s t src d =
      EvaluateFaceVarying t2 channel h s t src d := by
  simp only [EvaluateFaceVarying, hv, ht]

/-- C10 witness: two tables differing only in the vertex control-vertex
table produce the same face-varying sample. -/
theorem fvar_depends_only_on_channel_witness :
    EvaluateFaceVarying fvarTableA 0 handle0 (1/2) (1/2) srcId dstA =
      EvaluateFaceVarying fvarTableB 0 handle0 (1/2) (1/2) srcId dstA :=
  fvar_depends_only_on_channel fvarTableA fvarTableB 0 handle0 (1/2) (1/2)
    srcId dstA rfl rfl

/-- C4: whenever an evaluation entry point returns without an assertion
failure, its result is independent of the prior contents of the
destination accumulator: the destination is cleared before any weighted
contribution is accumulated. -/
theorem eval_output_independent_of_dst (tbl : PatchTables) (channel : Nat)
    (h : PatchHandle) (s t : Rat) (src : Nat → Rat) (d d' : PrimvarDst) :
    ((Evaluate tbl h s t src d).err = none →
      Evaluate tbl h s t src d = Evaluate tbl h s t src d') ∧
    ((EvaluateBilinear tbl h s t src d).err = none →
      EvaluateBilinear tbl h s t src d = EvaluateBilinear tbl h s t src d') ∧
    ((EvaluateFaceVarying tbl channel h s t src d).err = none →
      EvaluateFaceVarying tbl channel h s t src d =
        EvaluateFaceVarying tbl channel h s t src d') := by
  refine ⟨fun he => ?_, fun he => ?_, fun he => ?_⟩
  · by_cases hfa : IsFeatureAdaptive tbl = true
    · rcases hpt : (GetPatchArrayDescriptor tbl h.arrayIndex).ptype <;>
        rcases hst : tbl.endcapVertexStencilTables <;>
          simp [Evaluate, hfa, hpt, hst, bsplineFamilyCheck, PatchType.toOrd,
            PrimvarDst.clear]
    · have hfa' : IsFeatureAdaptive tbl = false := by simpa using hfa
      simp [Evaluate, hfa'] at he
  · by_cases hlen : (GetPatchVertices tbl h).length = 4
    · simp [EvaluateBilinear, hlen, PrimvarDst.clear]
    · simp [EvaluateBilinear, hlen] at he
  · rcases hty : GetFVarPatchType tbl channel h <;>
      simp [EvaluateFaceVarying, fvarDispatch, hty, InterpolateRegularPatch,
        InterpolateBoundaryPatch, InterpolateCornerPatch,
        InterpolateBilinearPatch, clearAccumulate] <;>
      simp [EvaluateFaceVarying, fvarDispatch, hty] at he

/-- C4 witness: concrete successful calls of the three entry points give
the same result from two different initial destinations. -/
theorem eval_output_independent_of_dst_witness :
    (Evaluate mixedTable handle0 0 0 srcId dstA =
      Evaluate mixedTable handle0 0 0 srcId dstB) ∧
    (EvaluateBilinear uniformQuadTable handle0 0 0 srcId dstA =
      EvaluateBilinear uniformQuadTable handle0 0 0 srcId dstB) ∧
    (EvaluateFaceVarying fvarTableA 0 handle0 0 0 srcId dstA =
      EvaluateFaceVarying fvarTableA 0 handle0 0 0 srcId dstB) :=
  ⟨(eval_output_independent_of_dst mixedTable 0 handle0 0 0 srcId dstA dstB).1
      (by decide),
   (eval_output_independent_of_dst uniformQuadTable 0 handle0 0 0 srcId dstA dstB).2.1
      (by decide),
   (eval_output_independent_of_dst fvarTableA 0 handle0 0 0 srcId dstA dstB).2.2
      (by decide)⟩

/-- C8: EvaluateBilinear asserts that the control-vertex slice of the patch
has exactly 4 entries; under that precondition it always interpolates with
bilinear weights computed from the stored bitfield, with no dispatch on
the stored patch type and no feature-adaptivity check. -/
theorem evaluate_bilinear_contract (tbl : PatchTables)
    (h : PatchHandle) (s t : Rat) (src : Nat → Rat) (d : PrimvarDst) :
    ((GetPatchVertices tbl h).length = 4 →
      EvaluateBilinear tbl h s t src d =
        { dst := InterpolateBilinearPatch (GetPatchVertices tbl h)
            (GetBilinearWeights
              (tbl.paramTable.getD h.patchIndex defaultPatchParam).bitField s t)
            src PrimvarDst.zero,
          err := none }) ∧
    ((GetPatchVertices tbl h).length ≠ 4 →
      EvaluateBilinear tbl h s t src d =
        { dst := d, err := some EvalError.patchSizeAssert }) := by
  constructor <;> intro hlen <;>
    simp [EvaluateBilinear, hlen, PrimvarDst.clear]

/-- C8 witness: a 4-control-vertex patch of stored type REGULAR in a
feature-adaptive table is interpolated bilinearly, and a 16-control-vertex
patch aborts on the size assertion. -/
theorem evaluate_bilinear_contract_witness :
    (EvaluateBilinear regular4Table handle0 0 0 srcId dstA =
      { dst := InterpolateBilinearPatch (GetPatchVertices regular4Table handle0)
          (GetBilinearWeights
            (regular4Table.paramTable.getD handle0.patchIndex
              defaultPatchParam).bitField 0 0)
          srcId PrimvarDst.zero,
        err := none }) ∧
    (EvaluateBilinear singleCreaseTable handle0 0 0 srcId dstA =
      { dst := dstA, err := some EvalError.patchSizeAssert }) :=
  ⟨(evaluate_bilinear_contract regular4Table handle0 0 0 srcId dstA).1 (by decide),
   (evaluate_bilinear_contract singleCreaseTable handle0 0 0 srcId dstA).2 (by decide)⟩

/-- C2 counterexample: on a table consisting only of bilinear quads,
Evaluate does not match EvaluateBilinear — IsFeatureAdaptive is false
there, so Evaluate aborts on its feature-adaptivity assertion while
EvaluateBilinear returns the interpolated sample. -/
theorem evaluate_vs_bilinear_counterexample :
    allBilinearQuads uniformQuadTable = true ∧
    (GetPatchArrayDescriptor uniformQuadTable 0).ptype = PatchType.QUADS ∧
    Evaluate uniformQuadTable handle0 0 0 srcId PrimvarDst.zero ≠
      EvaluateBilinear uniformQuadTable handle0 0 0 srcId PrimvarDst.zero := by
  refine ⟨by decide, by decide, fun he => ?_⟩
  have h1 : (Evaluate uniformQuadTable handle0 0 0 srcId PrimvarDst.zero).err =
      (EvaluateBilinear uniformQuadTable handle0 0 0 srcId PrimvarDst.zero).err :=
    congrArg EvalResult.err he
  have h2 : (Evaluate uniformQuadTable handle0 0 0 srcId PrimvarDst.zero).err =
      some EvalError.featureAdaptiveAssert := by decide
  have h3 : (EvaluateBilinear uniformQuadTable handle0 0 0 srcId
      PrimvarDst.zero).err = none := by decide
  rw [h2, h3] at h1
  exact Option.noConfusion h1

/-- C2 amended: when the feature-adaptivity precondition of Evaluate holds
(so its first assertion passes) and the handle resolves to a QUADS patch
with a 4-entry control-vertex slice, Evaluate routes to the QUADS branch
and produces exactly the EvaluateBilinear result for identical inputs. -/
theorem evaluate_quads_matches_bilinear (tbl : PatchTables)
    (h : PatchHandle) (s t : Rat) (src : Nat → Rat) (d : PrimvarDst)
    (hfa : IsFeatureAdaptive tbl = true)
    (hty : (getPatchArray tbl h.arrayIndex).desc.ptype = PatchType.QUADS)
    (hlen : (GetPatchVertices tbl h).length = 4) :
    Evaluate tbl h s t src d = EvaluateBilinear tbl h s t src d := by
  simp [Evaluate, EvaluateBilinear, hfa, GetPatchArrayDescriptor, hty, hlen,
    bsplineFamilyCheck, PatchType.toOrd, PrimvarDst.clear]

/-- C2 amended witness: in a feature-adaptive table holding a quad array
next to a regular array, the quad patch gives identical outputs through
both entry points. -/
theorem evaluate_quads_matches_bilinear_witness :
    Evaluate mixedTable handle0 (1/2) (1/2) srcId dstA =
      EvaluateBilinear mixedTable handle0 (1/2) (1/2) srcId dstA :=
  evaluate_quads_matches_bilinear mixedTable handle0 (1/2) (1/2) srcId dstA
    (by decide) (by decide) (by decide)

/-- C3 (code bug): on a face-varying patch whose channel type is TRIANGLES,
EvaluateFaceVarying does not abort: the source statement assert with a
string literal is always true (a non-null pointer), and the case has no
break, so the call falls through and produces the REGULAR B-spline
interpolation of the channel slice, returning with no error. -/
theorem fvar_triangles_not_fatal :
    GetFVarPatchType fvarTriTable 0 handle0 = PatchType.TRIANGLES ∧
    EvaluateFaceVarying fvarTriTable 0 handle0 0 0 srcId PrimvarDst.zero =
      { dst := InterpolateRegularPatch (GetFVarPatchValues fvarTriTable 0 handle0)
          (GetBSplineWeights BitField.cleared 0 0) srcId PrimvarDst.zero,
        err := none } :=
  ⟨rfl, rfl⟩
